import Mathlib

/-!
Verification of the `resource-monitor` repository (`src/main.py`).

The program is a single class `UsageMonitor` plus a `__main__` scheduler loop:
it samples RAM/CPU percentages once per second, appends them as text rows to a
CSV file named by a cached day identifier, and at a configured stop time
renders a per-minute mean chart and emails the chart plus the raw log,
deleting both on success.

This file shallowly embeds the pieces of `main.py` the claims depend on:

* the CSV row encoding used by `write_to_csv` and decoded by
  `pd.read_csv(..., names=["Timestamp","RAM","CPU"])` — percentages are
  one-decimal floats (psutil rounds to one decimal) and are modelled exactly
  as tenths-of-a-percent naturals with their decimal rendering;
* the per-minute resampling/mean of `plot_usage`
  (`df.resample(1T).mean()`), modelled over parsed samples with rational
  values — empty buckets are `none` (pandas `NaN`);
* the file-system effects of `plot_usage`, `send_email` and
  `send_email_report` on the chart file and the daily log, including the
  in-place rewrite of the CSV performed by `send_email`
  (`pd.read_csv(...); df.to_csv(attachment, index=False)` prepends a header
  row) and the `os.remove` calls after a successful send;
* the `__main__` loop: per-tick append to the file named by the cached
  `self.today`, the `"%H:%M:%S" == STOP_TIME` trigger, the refresh of
  `self.today` after a report, and the absence of any exception handler;
* the timing of the trigger, abstracted as loop check instants in tenths of
  seconds with consecutive checks at least one second apart (`time.sleep(1)`);
* `get_system_info` (graphics fallback on `ImportError`) and the
  `all([SENDER, PASSWORD, RECEIVER])` startup guard.

External collaborators (psutil, SMTP transport, matplotlib rendering, the OS
clock) are inputs to the model, as the spec treats them.
-/

namespace ResourceMonitor

/-- The comma separating CSV fields. -/
def commaCh : Char := ','

/-- The decimal point of the percentage rendering. -/
def dotCh : Char := '.'

/-- The character for decimal digit `d` (Python `str` digit output). -/
def digitCh (d : Nat) : Char := Char.ofNat (48 + d)

/-- The value of a decimal digit character. -/
def chDigit (c : Char) : Nat := c.toNat - 48

/-- Whether `c` is a decimal digit character. -/
def isDigitCh (c : Char) : Bool := decide (48 ≤ c.toNat) && decide (c.toNat ≤ 57)

/-- Little-endian decimal digits of `n` as characters, with explicit fuel so
that it reduces structurally. -/
def natCharsAux : Nat → Nat → List Char
  | 0, _ => []
  | _ + 1, 0 => []
  | fuel + 1, n + 1 => digitCh ((n + 1) % 10) :: natCharsAux fuel ((n + 1) / 10)

/-- Decimal rendering of a natural, as Python `str` renders the integer part
of a float: most-significant digit first, `"0"` for zero. -/
def natChars (n : Nat) : List Char :=
  if n = 0 then [digitCh 0] else (natCharsAux n n).reverse

/-- Parse a non-empty all-digit character list back to a natural, as
`pd.read_csv` parses the integer part of a numeric field. -/
def parseNatChars (l : List Char) : Option Nat :=
  if l ≠ [] ∧ l.all isDigitCh then
    some (Nat.ofDigits 10 ((l.map chDigit).reverse))
  else none

/-- Rendering of a one-decimal percentage value held as tenths of a percent:
`v = 405` renders as `"40.5"`, exactly as Python `str` renders the
one-decimal floats produced by `psutil` (`40.5`). -/
def printTenths (v : Nat) : List Char :=
  natChars (v / 10) ++ dotCh :: [digitCh (v % 10)]

/-- Split a character list on a separator, keeping empty fields, as the CSV
line `"t,r,c"` is split into its three fields. -/
def splitOnCh (sep : Char) : List Char → List (List Char)
  | [] => [[]]
  | c :: rest =>
    if c = sep then [] :: splitOnCh sep rest
    else
      match splitOnCh sep rest with
      | [] => [[c]]
      | f :: fs => (c :: f) :: fs

/-- Parse a one-decimal numeric field back to tenths of a percent. -/
def parseTenths (l : List Char) : Option Nat :=
  match splitOnCh dotCh l with
  | [ip, [d]] =>
    if isDigitCh d then (parseNatChars ip).map (fun n => n * 10 + chDigit d) else none
  | _ => none

/-- One usage sample as recorded by `write_to_csv`: the timestamp string and
the RAM and CPU percentages in tenths of a percent (the one-decimal floats
`psutil` reports, represented exactly). -/
structure Row where
  timestamp : List Char
  ram : Nat
  cpu : Nat
  deriving DecidableEq

/-- The text line `csv.writer.writerow([timestamp, ram_percent, cpu_percent])`
appends to the log file. -/
def encodeRow (r : Row) : List Char :=
  r.timestamp ++ commaCh :: (printTenths r.ram ++ commaCh :: printTenths r.cpu)

/-- Parse one log line into a sample, as
`pd.read_csv(..., names=["Timestamp","RAM","CPU"])` reads it. -/
def decodeRow (l : List Char) : Option Row :=
  match splitOnCh commaCh l with
  | [t, a, b] =>
    match parseTenths a, parseTenths b with
    | some x, some y => some ⟨t, x, y⟩
    | _, _ => none
  | _ => none

/-- Model of `UsageMonitor.write_to_csv`: open the log in append mode (creating it if
absent) and write one sample row. The file is modelled as its list of text
lines. -/
def write_to_csv (file : List (List Char)) (r : Row) : List (List Char) :=
  file ++ [encodeRow r]

/-- Model of `UsageMonitor.read_usage_data`: read every line of the log back as a
sample. -/
def read_usage_data (file : List (List Char)) : Option (List Row) :=
  file.mapM decodeRow

/-- A sample after `plot_usage` has parsed its timestamp
(`pd.to_datetime(..., format %Y-%m-%d %H:%M:%S)`): an absolute time in
whole seconds and the two percentages as exact rationals. -/
structure TSample where
  time : Nat
  ram : ℚ
  cpu : ℚ
  deriving DecidableEq

/-- The samples falling in the one-minute bucket with index `b` (bucket `b`
covers seconds `[60*b, 60*b+60)`), as `df.resample(1T)` groups rows. -/
def minuteGroup (xs : List TSample) (b : Nat) : List TSample :=
  xs.filter (fun s => s.time / 60 = b)

/-- The arithmetic mean of a list of values; `none` for an empty list, as
pandas `.mean()` yields `NaN` on an empty bucket. -/
def meanOf (l : List ℚ) : Option ℚ :=
  match l with
  | [] => none
  | _ => some (l.sum / (l.length : ℚ))

/-- The resampling step `df.resample(1T).mean()` of `plot_usage`: one entry per one-minute
bucket from the first sample's minute to the last sample's minute, keyed by
the bucket's start time in seconds, carrying the mean RAM and mean CPU of
the bucket's samples (`none` where the bucket is empty). -/
def resample1T (xs : List TSample) : List (Nat × Option ℚ × Option ℚ) :=
  match xs.map (fun s => s.time / 60) with
  | [] => []
  | m :: ms =>
    (List.range (ms.foldl Nat.max m + 1 - ms.foldl Nat.min m)).map fun i =>
      (60 * (ms.foldl Nat.min m + i),
        meanOf ((minuteGroup xs (ms.foldl Nat.min m + i)).map TSample.ram),
        meanOf ((minuteGroup xs (ms.foldl Nat.min m + i)).map TSample.cpu))

/-- The error conditions the report pipeline can raise: `notFound` for a
`FileNotFoundError` opening a missing file, `parseError` for a pandas
`EmptyDataError`/parse failure, `transport` for an `smtplib` failure during
STARTTLS/login/delivery. -/
inductive Err
  | notFound
  | parseError
  | transport
  deriving DecidableEq

/-- The local artifacts touched by one report cycle: the current daily log
(`usage_{today}.csv`, `none` when the file is absent, otherwise its text
lines) and whether the chart file `graph.png` exists. -/
structure Store where
  log : Option (List (List Char))
  chart : Bool
  deriving DecidableEq

/-- Parse a whole log file into samples; `none` if any line is malformed. -/
def parseLog (lines : List (List Char)) : Option (List Row) :=
  lines.mapM decodeRow

/-- The header row `df.to_csv(attachment, index=False)` writes in front of
the data when `send_email` rewrites the CSV attachment. -/
def csvHeaderLine : List Char := "Timestamp,RAM,CPU".data

/-- Model of `UsageMonitor.plot_usage`: read the daily log (`FileNotFoundError` if
absent, `EmptyDataError` if empty, parse failure if malformed), resample,
and save `graph.png`. Only on success is the chart file written. -/
def plot_usage (st : Store) : Store × Option Err :=
  match st.log with
  | none => (st, some Err.notFound)
  | some [] => (st, some Err.parseError)
  | some (l :: rest) =>
    match parseLog (l :: rest) with
    | none => (st, some Err.parseError)
    | some _ => ({ st with chart := true }, none)

/-- Model of `UsageMonitor.send_email` with the report's two attachments: opens the
chart and the log (failing if either is absent), rewrites the CSV log in
place via `pd.read_csv(...); df.to_csv(attachment, index=False)` — which
prepends the header row — then performs the SMTP delivery, whose outcome is
the external input `transportOk`. -/
def send_email (transportOk : Bool) (st : Store) : Store × Option Err :=
  match st.chart, st.log with
  | true, some (l :: rest) =>
    if transportOk then ({ st with log := some (csvHeaderLine :: l :: rest) }, none)
    else ({ st with log := some (csvHeaderLine :: l :: rest) }, some Err.transport)
  | true, some [] => (st, some Err.parseError)
  | _, _ => (st, some Err.notFound)

/-- Model of `UsageMonitor.send_email_report`: query system info, build the message,
render the chart, send the email with both attachments, and only then
`os.remove` the chart and the log. Any error aborts the remaining steps and
propagates to the caller. -/
def send_email_report (transportOk : Bool) (st : Store) : Store × Option Err :=
  match plot_usage st with
  | (st1, some e) => (st1, some e)
  | (st1, none) =>
    match send_email transportOk st1 with
    | (st2, some e) => (st2, some e)
    | (_, none) => (⟨none, false⟩, none)

/-- One iteration's external inputs: the wall-clock date and time-of-day
strings `datetime.now()` would format, the sample `get_usage` returns, and
whether the SMTP transport would succeed. -/
structure Tick where
  date : List Char
  tod : List Char
  row : Row
  transportOk : Bool
  deriving DecidableEq

/-- The `STOP_TIME = "23:59:59"` constant of `__main__`. -/
def stopTimeStr : List Char := "23:59:59".data

/-- The log file name `usage_{today}.csv` built from a day identifier. -/
def fileName (today : List Char) : List Char :=
  "usage_".data ++ today ++ ".csv".data

/-- The scheduler loop's state: the monitor's cached `self.today`, the
contents of the file `usage_{today}.csv` (`none` when absent), whether
`graph.png` exists, and the history of appends as (target file, sample)
pairs. -/
structure LoopSt where
  today : List Char
  log : Option (List (List Char))
  chart : Bool
  writes : List (List Char × Row)
  deriving DecidableEq

/-- One iteration of the `while True` loop: `get_usage` then `write_to_csv`
(appending to the file named by the cached `self.today`), then the
`"%H:%M:%S" == STOP_TIME` check; on a match, `send_email_report` runs and —
only if it returns — `self.today` is refreshed from the wall clock. -/
def loopIter (st : LoopSt) (tk : Tick) : LoopSt × Option Err :=
  let st1 : LoopSt :=
    { st with
      log := some ((st.log.getD []) ++ [encodeRow tk.row])
      writes := st.writes ++ [(fileName st.today, tk.row)] }
  if tk.tod = stopTimeStr then
    match send_email_report tk.transportOk ⟨st1.log, st1.chart⟩ with
    | (store2, some e) =>
      ({ st1 with log := store2.log, chart := store2.chart }, some e)
    | (store2, none) =>
      ({ st1 with log := store2.log, chart := store2.chart, today := tk.date }, none)
  else (st1, none)

/-- The `while True` loop over a finite prefix of tick inputs. There is no
exception handler: the first error ends the run immediately (the process
terminates). -/
def runLoop : List Tick → LoopSt → LoopSt × Option Err
  | [], st => (st, none)
  | tk :: rest, st =>
    match loopIter st tk with
    | (st1, some e) => (st1, some e)
    | (st1, none) => runLoop rest st1

/-- Second-of-day of a loop-check instant, instants measured in tenths of a
second: the `"%H:%M:%S"` string the check compares corresponds to the whole
second `(t / 10) % 86400`. -/
def secOfDay (t : Nat) : Nat := (t / 10) % 86400

/-- Calendar-day index of a check instant in tenths of a second. -/
def dayIndex (t : Nat) : Nat := t / 864000

/-- The stop time `"23:59:59"` as a second-of-day. -/
def stopSecond : Nat := 86399

/-- Whether a sequence of loop-check instants respects the loop's timing:
each iteration contains a `time.sleep(1)`, so consecutive checks are at
least one second (ten tenths) apart. -/
def checkGaps : List Nat → Bool
  | [] => true
  | [_] => true
  | a :: b :: rest => decide (a + 10 ≤ b) && checkGaps (b :: rest)

/-- How many checks of the trace trigger `send_email_report` on day `d`:
those whose formatted time-of-day equals the stop time. -/
def reportFires (ts : List Nat) (d : Nat) : Nat :=
  (ts.filter (fun t => decide (dayIndex t = d) && decide (secOfDay t = stopSecond))).length

/-- The external system-query results `get_system_info` consumes. `gputil`
is `none` when the `GPUtil` module is absent (`import GPUtil` raises
`ImportError`), otherwise the list of GPU names it enumerates. -/
structure SysEnv where
  osName : List Char
  osVersion : List Char
  osFullname : List Char
  memTotalBytes : Nat
  cpuBrand : List Char
  gputil : Option (List (List Char))
  diskTotalBytes : Nat
  deriving DecidableEq

/-- The graphics field of the system profile: either the enumerated adapter
names or an explicit unavailability marker. -/
inductive Graphics
  | adapters (names : List (List Char))
  | unavailable (msg : List Char)
  deriving DecidableEq

/-- The dictionary `get_system_info` returns (byte totals kept raw; the GiB
string formatting is presentation only). -/
structure SystemInfo where
  os : List Char
  memTotalBytes : Nat
  cpu_model : List Char
  graphics : Graphics
  storageTotalBytes : Nat
  deriving DecidableEq

/-- Model of `UsageMonitor.get_system_info`: assembles the profile; the GPU part is a
`try/except ImportError` — a missing `GPUtil` module yields the marker
string `"GPUtil not installed"` instead of an error. -/
def get_system_info (env : SysEnv) : SystemInfo :=
  { os := env.osName ++ ' ' :: env.osVersion ++ " (".data ++ env.osFullname ++ ")".data
    memTotalBytes := env.memTotalBytes
    cpu_model := env.cpuBrand
    graphics :=
      match env.gputil with
      | some gs => Graphics.adapters gs
      | none => Graphics.unavailable "GPUtil not installed".data
    storageTotalBytes := env.diskTotalBytes }

/-- Python truthiness of an optional environment string: `os.getenv` yields
`None` when unset, and `all([...])` treats both `None` and `""` as false. -/
def pyTruthyStr : Option (List Char) → Bool
  | none => false
  | some s => !s.isEmpty

/-- The `all([SENDER, PASSWORD, RECEIVER])` guard of `__main__`. -/
def startGuard (sender password : Option (List Char))
    (receivers : List (List Char)) : Bool :=
  pyTruthyStr sender && pyTruthyStr password && !receivers.isEmpty

/-- Model of the `__main__` entry point: construct the monitor and run the loop only when the guard
passes; otherwise the process exits having executed nothing. -/
def mainRun (sender password : Option (List Char)) (receivers : List (List Char))
    (today0 : List Char) (ticks : List Tick) : LoopSt × Option Err :=
  if startGuard sender password receivers then
    runLoop ticks ⟨today0, none, false, []⟩
  else (⟨today0, none, false, []⟩, none)

/-- A concrete sample row used by witnesses. -/
def sampleRowA : Row := ⟨"2024-05-01 09:00:00".data, 400, 100⟩

/-- A second concrete sample row used by witnesses. -/
def sampleRowB : Row := ⟨"2024-05-01 09:00:30".data, 600, 200⟩

end ResourceMonitor

namespace ResourceMonitor

theorem chDigit_digitCh {d : Nat} (h : d < 10) : chDigit (digitCh d) = d := by
  interval_cases d <;> decide

theorem isDigitCh_digitCh {d : Nat} (h : d < 10) : isDigitCh (digitCh d) = true := by
  interval_cases d <;> decide

theorem digitCh_ne_dot {d : Nat} (h : d < 10) : digitCh d ≠ dotCh := by
  interval_cases d <;> decide

theorem digitCh_ne_comma {d : Nat} (h : d < 10) : digitCh d ≠ commaCh := by
  interval_cases d <;> decide

theorem natCharsAux_eq (fuel n : Nat) (h : n ≤ fuel) :
    natCharsAux fuel n = (Nat.digits 10 n).map digitCh := by
  induction fuel generalizing n with
  | zero =>
    interval_cases n
    simp [natCharsAux]
  | succ fuel ih =>
    cases n with
    | zero => simp [natCharsAux]
    | succ n =>
      simp only [natCharsAux]
      rw [Nat.digits_def' (by norm_num : (1 : ℕ) < 10) (Nat.succ_pos n), List.map_cons]
      rw [ih ((n + 1) / 10) (by omega)]

theorem natChars_eq_digits (n : Nat) :
    natChars n =
      if n = 0 then [digitCh 0] else ((Nat.digits 10 n).map digitCh).reverse := by
  unfold natChars
  by_cases h : n = 0
  · simp [h]
  · rw [if_neg h, if_neg h, natCharsAux_eq n n le_rfl]

theorem mem_natChars_lt {n : Nat} {c : Char} (h : c ∈ natChars n) :
    ∃ d, d < 10 ∧ c = digitCh d := by
  rw [natChars_eq_digits] at h
  split at h
  · rcases List.mem_singleton.mp h with rfl
    exact ⟨0, by norm_num, rfl⟩
  · rcases List.mem_reverse.mp h with hm
    rcases List.mem_map.mp hm with ⟨d, hd, rfl⟩
    exact ⟨d, Nat.digits_lt_base (by norm_num) hd, rfl⟩

theorem natChars_all_digits (n : Nat) : (natChars n).all isDigitCh = true := by
  rw [List.all_eq_true]
  intro c hc
  rcases mem_natChars_lt hc with ⟨d, hd, rfl⟩
  exact isDigitCh_digitCh hd

theorem natChars_ne_nil (n : Nat) : natChars n ≠ [] := by
  rw [natChars_eq_digits]
  split
  · simp
  · rename_i h
    simp [Nat.digits_ne_nil_iff_ne_zero, h]

theorem parseNatChars_natChars (n : Nat) : parseNatChars (natChars n) = some n := by
  unfold parseNatChars
  rw [if_pos ⟨natChars_ne_nil n, natChars_all_digits n⟩]
  congr 1
  by_cases h0 : n = 0
  · subst h0; decide
  · rw [natChars_eq_digits]
    rw [if_neg h0, List.map_reverse, List.reverse_reverse, List.map_map]
    have hmap : (Nat.digits 10 n).map (chDigit ∘ digitCh) = (Nat.digits 10 n).map id :=
      List.map_congr_left fun d hd => chDigit_digitCh (Nat.digits_lt_base (by norm_num) hd)
    rw [hmap, List.map_id, Nat.ofDigits_digits]

theorem dot_not_mem_natChars (n : Nat) : dotCh ∉ natChars n := by
  intro h
  rcases mem_natChars_lt h with ⟨d, hd, he⟩
  exact digitCh_ne_dot hd he.symm

theorem comma_not_mem_natChars (n : Nat) : commaCh ∉ natChars n := by
  intro h
  rcases mem_natChars_lt h with ⟨d, hd, he⟩
  exact digitCh_ne_comma hd he.symm

theorem splitOnCh_no_sep {sep : Char} {a : List Char} (h : sep ∉ a) :
    splitOnCh sep a = [a] := by
  induction a with
  | nil => rfl
  | cons c rest ih =>
    have hc : c ≠ sep := fun he => h (he ▸ List.mem_cons_self c rest)
    have hrest : sep ∉ rest := fun hm => h (List.mem_cons_of_mem c hm)
    simp only [splitOnCh, if_neg hc, ih hrest]

theorem splitOnCh_append {sep : Char} {a r : List Char} (h : sep ∉ a) :
    splitOnCh sep (a ++ sep :: r) = a :: splitOnCh sep r := by
  induction a with
  | nil => simp [splitOnCh]
  | cons c rest ih =>
    have hc : c ≠ sep := fun he => h (he ▸ List.mem_cons_self c rest)
    have hrest : sep ∉ rest := fun hm => h (List.mem_cons_of_mem c hm)
    rw [List.cons_append]
    simp only [splitOnCh, if_neg hc, ih hrest]

theorem parseTenths_printTenths (v : Nat) : parseTenths (printTenths v) = some v := by
  unfold printTenths parseTenths
  rw [splitOnCh_append (dot_not_mem_natChars (v / 10))]
  rw [splitOnCh_no_sep (by
    intro h
    rcases List.mem_singleton.mp h with he
    exact digitCh_ne_dot (Nat.mod_lt v (by norm_num)) he.symm)]
  dsimp only
  rw [if_pos (isDigitCh_digitCh (Nat.mod_lt v (by norm_num)))]
  rw [parseNatChars_natChars]
  simp only [Option.map_some']
  rw [chDigit_digitCh (Nat.mod_lt v (by norm_num))]
  congr 1
  omega

theorem comma_not_mem_printTenths (v : Nat) : commaCh ∉ printTenths v := by
  unfold printTenths
  intro h
  rcases List.mem_append.mp h with h | h
  · exact comma_not_mem_natChars _ h
  · rcases List.mem_cons.mp h with he | h
    · exact absurd he (by decide)
    · rcases List.mem_singleton.mp h with he
      exact digitCh_ne_comma (Nat.mod_lt v (by norm_num)) he.symm

theorem decodeRow_encodeRow (r : Row) (h : commaCh ∉ r.timestamp) :
    decodeRow (encodeRow r) = some r := by
  unfold encodeRow decodeRow
  rw [splitOnCh_append h]
  rw [splitOnCh_append (comma_not_mem_printTenths r.ram)]
  rw [splitOnCh_no_sep (comma_not_mem_printTenths r.cpu)]
  dsimp only
  rw [parseTenths_printTenths, parseTenths_printTenths]

theorem foldl_write_to_csv (file : List (List Char)) (samples : List Row) :
    samples.foldl write_to_csv file = file ++ samples.map encodeRow := by
  induction samples generalizing file with
  | nil => simp
  | cons s rest ih => simp [write_to_csv, ih, List.append_assoc]

theorem read_map_encode (samples : List Row)
    (h : ∀ s ∈ samples, commaCh ∉ s.timestamp) :
    read_usage_data (samples.map encodeRow) = some samples := by
  induction samples with
  | nil => rfl
  | cons s rest ih =>
    have hs : commaCh ∉ s.timestamp := h s (List.mem_cons_self s rest)
    have hr := ih (fun x hx => h x (List.mem_cons_of_mem s hx))
    unfold read_usage_data at hr ⊢
    simp only [List.map_cons, List.mapM_cons, decodeRow_encodeRow s hs, hr]
    rfl

/-- C2: every sequence of samples appended on a given date via
`write_to_csv` (each append opening the date-named file in append mode and
writing one text row of timestamp, RAM, CPU) reads back, via
`read_usage_data`, as exactly those samples in append order, with the
timestamp string and both one-decimal percentage values round-tripping
exactly. The timestamps the program writes (`"%Y-%m-%d %H:%M:%S"`) contain
no field separator, which is the stated hypothesis. -/
theorem claim_C2_roundtrip (samples : List Row)
    (h : ∀ s ∈ samples, commaCh ∉ s.timestamp) :
    read_usage_data (samples.foldl write_to_csv []) = some samples := by
  rw [foldl_write_to_csv, List.nil_append]
  exact read_map_encode samples h

/-- Witness for C2 at a concrete two-sample log. -/
theorem claim_C2_roundtrip_witness :
    read_usage_data ([sampleRowA, sampleRowB].foldl write_to_csv []) =
      some [sampleRowA, sampleRowB] :=
  claim_C2_roundtrip [sampleRowA, sampleRowB] (by decide)

theorem meanOf_eq_none_iff (l : List ℚ) : meanOf l = none ↔ l = [] := by
  cases l <;> simp [meanOf]

theorem meanOf_eq_some_mul (l : List ℚ) (v : ℚ) (h : meanOf l = some v) :
    v * (l.length : ℚ) = l.sum := by
  cases l with
  | nil => exact absurd h (by simp [meanOf])
  | cons a rest =>
    have hv : (a :: rest).sum / ((a :: rest).length : ℚ) = v := by
      simpa [meanOf] using h
    have hlen : ((a :: rest).length : ℚ) ≠ 0 := by
      rw [List.length_cons]
      exact_mod_cast Nat.succ_ne_zero rest.length
    rw [← hv, div_mul_cancel₀ _ hlen]

/-- C1: `plot_usage` groups the day's samples into fixed one-minute buckets
keyed by the bucket's start timestamp, and for every bucket appearing in
`resample1T`'s output, the carried value is `none` exactly when the bucket
holds no samples (missing, not zero), and any carried value `v` is the
arithmetic mean of the bucket's RAM (resp. CPU) percentages
(`v * count = sum`); moreover on the two samples (09:00:00, RAM 40, CPU 10)
and (09:00:30, RAM 60, CPU 20) the single 09:00 bucket carries RAM 50 and
CPU 15. -/
theorem claim_C1_bucket_means :
    (∀ (xs : List TSample) (t : Nat) (r c : Option ℚ),
        (t, r, c) ∈ resample1T xs →
          (r = none ↔ minuteGroup xs (t / 60) = []) ∧
          (∀ v, r = some v →
            v * ((minuteGroup xs (t / 60)).length : ℚ) =
              ((minuteGroup xs (t / 60)).map TSample.ram).sum) ∧
          (c = none ↔ minuteGroup xs (t / 60) = []) ∧
          (∀ v, c = some v →
            v * ((minuteGroup xs (t / 60)).length : ℚ) =
              ((minuteGroup xs (t / 60)).map TSample.cpu).sum)) ∧
      resample1T [⟨32400, 40, 10⟩, ⟨32430, 60, 20⟩] =
        [(32400, some 50, some 15)] := by
  constructor
  · intro xs t r c hmem
    unfold resample1T at hmem
    split at hmem
    · exact absurd hmem (List.not_mem_nil _)
    · rcases List.mem_map.mp hmem with ⟨i, _, heq⟩
      rw [Prod.mk.injEq, Prod.mk.injEq] at heq
      obtain ⟨ht, hr, hc⟩ := heq
      rw [← ht, Nat.mul_div_cancel_left _ (by norm_num)]
      refine ⟨?_, ?_, ?_, ?_⟩
      · rw [← hr, meanOf_eq_none_iff, List.map_eq_nil_iff]
      · intro v hv
        rw [← hr] at hv
        have := meanOf_eq_some_mul _ v hv
        rwa [List.length_map] at this
      · rw [← hc, meanOf_eq_none_iff, List.map_eq_nil_iff]
      · intro v hv
        rw [← hc] at hv
        have := meanOf_eq_some_mul _ v hv
        rwa [List.length_map] at this
  · norm_num [resample1T, minuteGroup, meanOf, List.foldl_cons, List.foldl_nil,
      List.filter_cons, List.filter_nil, List.range_succ]

/-- Witness for C1: the general bucket-mean property instantiated at the
09:00 bucket of the two-sample scenario. -/
theorem claim_C1_bucket_means_witness :
    (50 : ℚ) *
        ((minuteGroup [⟨32400, 40, 10⟩, ⟨32430, 60, 20⟩] (32400 / 60)).length : ℚ) =
      ((minuteGroup [⟨32400, 40, 10⟩, ⟨32430, 60, 20⟩] (32400 / 60)).map
          TSample.ram).sum :=
  (claim_C1_bucket_means.1 [⟨32400, 40, 10⟩, ⟨32430, 60, 20⟩] 32400
      (some 50) (some 15)
      (by rw [claim_C1_bucket_means.2]; exact List.mem_singleton.mpr rfl)).2.1 50 rfl

/-- C3: `send_email_report` deletes the chart and the daily log exactly when
the transport send succeeds. On a well-formed non-empty log: with a
successful transport both files are removed (`log = none`, `chart = false`
and no error); with a failing transport the error surfaces to the caller
and both files are still present — the chart just rendered exists and the
log file exists (holding the header-prefixed rows `send_email` rewrote). -/
theorem claim_C3_delete_iff_sent (st : Store) (l : List Char)
    (rest : List (List Char)) (rows : List Row)
    (hlog : st.log = some (l :: rest)) (hparse : parseLog (l :: rest) = some rows) :
    send_email_report true st = (⟨none, false⟩, none) ∧
      (send_email_report false st).2 = some Err.transport ∧
      (send_email_report false st).1.chart = true ∧
      (send_email_report false st).1.log = some (csvHeaderLine :: l :: rest) := by
  obtain ⟨slog, schart⟩ := st
  simp only [Store.log] at hlog
  subst hlog
  simp [send_email_report, plot_usage, send_email, hparse]

/-- Witness for C3 at a concrete one-row log. -/
theorem claim_C3_delete_iff_sent_witness :
    send_email_report true ⟨some [encodeRow sampleRowA], false⟩ = (⟨none, false⟩, none) ∧
      (send_email_report false ⟨some [encodeRow sampleRowA], false⟩).2 = some Err.transport ∧
      (send_email_report false ⟨some [encodeRow sampleRowA], false⟩).1.chart = true ∧
      (send_email_report false ⟨some [encodeRow sampleRowA], false⟩).1.log =
        some (csvHeaderLine :: [encodeRow sampleRowA]) :=
  claim_C3_delete_iff_sent ⟨some [encodeRow sampleRowA], false⟩ (encodeRow sampleRowA)
    [] [sampleRowA] rfl (by decide)

/-- C6 counterexample: composing and sending the report is claimed never to
mutate the log file, yet on a concrete one-row log a failed send leaves the
file rewritten with a `Timestamp,RAM,CPU` header row prepended — its
contents are no longer the recorded sample rows. -/
theorem claim_C6_counterexample :
    (send_email_report false ⟨some [encodeRow sampleRowA], false⟩).1.log =
        some (csvHeaderLine :: [encodeRow sampleRowA]) ∧
      csvHeaderLine :: [encodeRow sampleRowA] ≠ [encodeRow sampleRowA] := by
  decide

/-- C6 amended: recorded sample rows are never edited — `write_to_csv` only
appends — but the send step does mutate the log file once: `send_email`
rewrites it in place, prepending the header row `Timestamp,RAM,CPU` while
preserving every sample row in order; after `send_email_report` the log is
either deleted (transport succeeded) or equals the header followed by the
original rows (transport failed). -/
theorem claim_C6_amended (st : Store) (l : List Char) (rest : List (List Char))
    (rows : List Row) (file : List (List Char)) (r : Row)
    (hlog : st.log = some (l :: rest)) (hparse : parseLog (l :: rest) = some rows) :
    write_to_csv file r = file ++ [encodeRow r] ∧
      (send_email_report true st).1.log = none ∧
      (send_email_report false st).1.log = some (csvHeaderLine :: l :: rest) := by
  obtain ⟨slog, schart⟩ := st
  simp only [Store.log] at hlog
  subst hlog
  refine ⟨rfl, ?_, ?_⟩ <;> simp [send_email_report, plot_usage, send_email, hparse]

/-- Witness for the amended C6 at a concrete one-row log. -/
theorem claim_C6_amended_witness :
    write_to_csv [] sampleRowB = [] ++ [encodeRow sampleRowB] ∧
      (send_email_report true ⟨some [encodeRow sampleRowB], false⟩).1.log = none ∧
      (send_email_report false ⟨some [encodeRow sampleRowB], false⟩).1.log =
        some (csvHeaderLine :: [encodeRow sampleRowB]) :=
  claim_C6_amended ⟨some [encodeRow sampleRowB], false⟩ (encodeRow sampleRowB) []
    [sampleRowB] [] sampleRowB rfl (by decide)

/-- C7: `plot_usage` on a missing log fails with the not-found condition and
on an empty log with the parse condition; in both cases the state is
untouched — in particular no chart file is produced — and
`send_email_report` surfaces the same error with the transport never
reached (the outcome is identical for both transport behaviours) and
nothing deleted. -/
theorem claim_C7_empty_missing (st : Store) (tOk : Bool)
    (h : st.log = none ∨ st.log = some []) :
    plot_usage st = (st, some (if st.log = none then Err.notFound else Err.parseError)) ∧
      send_email_report tOk st =
        (st, some (if st.log = none then Err.notFound else Err.parseError)) := by
  obtain ⟨slog, schart⟩ := st
  rcases h with h | h <;> simp only [Store.log] at h <;> subst h <;>
    simp [plot_usage, send_email_report]

/-- Witness for C7: a missing log and an empty log, chart initially absent. -/
theorem claim_C7_empty_missing_witness :
    (plot_usage ⟨none, false⟩ =
        (⟨none, false⟩, some (if (none : Option (List (List Char))) = none
          then Err.notFound else Err.parseError)) ∧
      send_email_report true ⟨none, false⟩ =
        (⟨none, false⟩, some (if (none : Option (List (List Char))) = none
          then Err.notFound else Err.parseError))) ∧
      (plot_usage ⟨some [], false⟩ =
        (⟨some [], false⟩, some (if (some [] : Option (List (List Char))) = none
          then Err.notFound else Err.parseError)) ∧
      send_email_report false ⟨some [], false⟩ =
        (⟨some [], false⟩, some (if (some [] : Option (List (List Char))) = none
          then Err.notFound else Err.parseError))) :=
  ⟨claim_C7_empty_missing ⟨none, false⟩ true (Or.inl rfl),
    claim_C7_empty_missing ⟨some [], false⟩ false (Or.inr rfl)⟩

/-- C4 counterexample: a monitor constructed on 2024-05-01 whose loop ticks
once while the wall-clock date reads 2024-05-02 (no report trigger) appends
to `usage_2024-05-01.csv` — the cached day identifier — and not to the file
named by the current calendar date, refuting that the Recorder always
appends to the current date's log. -/
theorem claim_C4_counterexample :
    (runLoop [⟨"2024-05-02".data, "10:00:00".data, sampleRowA, true⟩]
        ⟨"2024-05-01".data, none, false, []⟩).1.writes =
      [(fileName "2024-05-01".data, sampleRowA)] ∧
      fileName "2024-05-01".data ≠ fileName "2024-05-02".data := by
  decide

/-- C4 amended: the day identifier is not derived from the wall clock at
each tick; it is cached in the monitor at construction and refreshed only
when a report fires. Every append targets the file named by the cached
identifier, so on a trace containing no report trigger all appends go to
the construction-time date's file regardless of the current calendar date
of each tick. -/
theorem claim_C4_amended (ticks : List Tick) (st : LoopSt)
    (hticks : ∀ tk ∈ ticks, tk.tod ≠ stopTimeStr) :
    ∀ w ∈ (runLoop ticks st).1.writes, w ∈ st.writes ∨ w.1 = fileName st.today := by
  induction ticks generalizing st with
  | nil =>
    intro w hw
    exact Or.inl hw
  | cons tk rest ih =>
    intro w hw
    have htk : tk.tod ≠ stopTimeStr := hticks tk (List.mem_cons_self tk rest)
    have hrest : ∀ x ∈ rest, x.tod ≠ stopTimeStr :=
      fun x hx => hticks x (List.mem_cons_of_mem tk hx)
    rw [runLoop] at hw
    rw [loopIter, if_neg htk] at hw
    dsimp only at hw
    rcases ih _ hrest w hw with hmem | htarget
    · rcases List.mem_append.mp hmem with h | h
      · exact Or.inl h
      · rcases List.mem_singleton.mp h with rfl
        exact Or.inr rfl
    · exact Or.inr htarget

/-- Witness for the amended C4: on the one-tick trace of the counterexample
scenario, the single recorded append targets the cached date's file. -/
theorem claim_C4_amended_witness :
    (fileName "2024-05-01".data, sampleRowA) ∈ ([] : List (List Char × Row)) ∨
      (fileName "2024-05-01".data, sampleRowA).1 = fileName "2024-05-01".data :=
  claim_C4_amended [⟨"2024-05-02".data, "10:00:00".data, sampleRowA, true⟩]
    ⟨"2024-05-01".data, none, false, []⟩ (by decide)
    (fileName "2024-05-01".data, sampleRowA) (by decide)

/-- C10: the scheduler loop has no exception handler, so when an iteration's
report attempt fails, the error propagates and the run ends: extending the
input trace with any further ticks changes nothing — the final state (in
particular its list of recorded samples) and the surfaced error are those
at the failure point, so no further samples are ever recorded. -/
theorem claim_C10_error_stops_loop (ticks extra : List Tick) (st : LoopSt) (e : Err)
    (h : (runLoop ticks st).2 = some e) :
    runLoop (ticks ++ extra) st = ((runLoop ticks st).1, some e) := by
  induction ticks generalizing st with
  | nil =>
    rw [runLoop] at h
    exact absurd h (by simp)
  | cons tk rest ih =>
    rcases hit : loopIter st tk with ⟨st1, oe⟩
    rw [runLoop, hit] at h
    conv_lhs => rw [List.cons_append, runLoop, hit]
    conv_rhs => rw [runLoop, hit]
    cases oe with
    | some e1 =>
      dsimp only at h ⊢
      rw [h]
    | none =>
      dsimp only at h ⊢
      exact ih st1 h

/-- Witness for C10: a concrete one-tick trace whose report attempt fails at
the SMTP transport; appending one more tick leaves the run's outcome
unchanged. -/
theorem claim_C10_error_stops_loop_witness :
    runLoop
        ([⟨"2024-05-01".data, "23:59:59".data, sampleRowA, false⟩] ++
          [⟨"2024-05-02".data, "10:00:00".data, sampleRowB, true⟩])
        ⟨"2024-05-01".data, none, false, []⟩ =
      ((runLoop [⟨"2024-05-01".data, "23:59:59".data, sampleRowA, false⟩]
          ⟨"2024-05-01".data, none, false, []⟩).1, some Err.transport) :=
  claim_C10_error_stops_loop
    [⟨"2024-05-01".data, "23:59:59".data, sampleRowA, false⟩]
    [⟨"2024-05-02".data, "10:00:00".data, sampleRowB, true⟩]
    ⟨"2024-05-01".data, none, false, []⟩ Err.transport (by decide)

theorem checkGaps_pairwise (ts : List Nat) (h : checkGaps ts = true) :
    ts.Pairwise (fun a b => a + 10 ≤ b) := by
  induction ts with
  | nil => exact List.Pairwise.nil
  | cons a rest ih =>
    cases rest with
    | nil => simp
    | cons b rest2 =>
      rw [checkGaps, Bool.and_eq_true, decide_eq_true_eq] at h
      obtain ⟨h1, h2⟩ := h
      have hp := ih h2
      obtain ⟨hb, -⟩ := List.pairwise_cons.mp hp
      rw [List.pairwise_cons]
      refine ⟨?_, hp⟩
      intro x hx
      rcases List.mem_cons.mp hx with rfl | hx2
      · exact h1
      · have := hb x hx2
        omega

theorem stop_hits_length_le_one (l : List Nat) (d : Nat)
    (hp : l.Pairwise (fun a b => a + 10 ≤ b))
    (hall : ∀ t ∈ l, dayIndex t = d ∧ secOfDay t = stopSecond) :
    l.length ≤ 1 := by
  match l with
  | [] => simp
  | [_] => simp
  | x :: y :: rest =>
    exfalso
    have hxy : x + 10 ≤ y :=
      (List.pairwise_cons.mp hp).1 y (List.mem_cons_self y rest)
    have hx := hall x (List.mem_cons_self x (y :: rest))
    have hy := hall y (List.mem_cons_of_mem x (List.mem_cons_self y rest))
    unfold dayIndex secOfDay stopSecond at hx hy
    omega

/-- C5 counterexample: the configured stop second of day 0 is reached during
the trace — the first check happens before it and the next check after the
day has rolled over — yet with the loop's legal timing (consecutive checks
at least one second apart) the stop-time equality never holds, so
`sendDailyReport` is triggered zero times for that date, refuting "exactly
once, not zero times". The instants are 23:59:58.5 of day 0 and 00:00:00.5
of day 1, in tenths of a second. -/
theorem claim_C5_counterexample :
    checkGaps [863985, 864005] = true ∧
      dayIndex 863985 = 0 ∧ secOfDay 863985 < stopSecond ∧
      dayIndex 864005 = 1 ∧
      reportFires [863985, 864005] 0 = 0 := by
  decide

/-- C5 amended: on any check-instant trace respecting the loop's timing
(each iteration sleeps one second, so consecutive checks are at least one
second apart), the `"%H:%M:%S" == STOP_TIME` comparison matches at most
once per calendar day — never multiple times, because the matching second
`23:59:59` lasts one second and two checks cannot both land in it — but
possibly zero times, when the checks skip the matching second. -/
theorem claim_C5_amended_at_most_once (ts : List Nat) (d : Nat)
    (h : checkGaps ts = true) : reportFires ts d ≤ 1 := by
  unfold reportFires
  apply stop_hits_length_le_one _ d
  · exact List.Pairwise.filter _ (checkGaps_pairwise ts h)
  · intro t ht
    have := (List.mem_filter.mp ht).2
    rw [Bool.and_eq_true, decide_eq_true_eq, decide_eq_true_eq] at this
    exact this

/-- Witness for the amended C5 on a concrete trace that does hit the stop
second of day 0 exactly at 23:59:59.0. -/
theorem claim_C5_amended_at_most_once_witness :
    reportFires [863980, 863990, 864000] 0 ≤ 1 :=
  claim_C5_amended_at_most_once [863980, 863990, 864000] 0 (by decide)

/-- C8: when GPU enumeration is unavailable (`import GPUtil` raises
`ImportError`), `get_system_info` does not fail: it is total and fills the
graphics field with the explicit marker `"GPUtil not installed"` instead of
raising, for every invocation. -/
theorem claim_C8_gpu_marker (env : SysEnv) (h : env.gputil = none) :
    (get_system_info env).graphics =
      Graphics.unavailable "GPUtil not installed".data := by
  unfold get_system_info
  rw [h]

/-- Witness for C8 at a concrete environment without the GPUtil module. -/
theorem claim_C8_gpu_marker_witness :
    (get_system_info
        ⟨"Linux".data, "6.1".data, "Linux-6.1-x86_64".data, 17179869184,
          "ExampleCPU".data, none, 536870912000⟩).graphics =
      Graphics.unavailable "GPUtil not installed".data :=
  claim_C8_gpu_marker
    ⟨"Linux".data, "6.1".data, "Linux-6.1-x86_64".data, 17179869184,
      "ExampleCPU".data, none, 536870912000⟩ rfl

/-- C9: `__main__` refuses to start the sampling loop when the sender
address is missing, the credential is missing, or the recipient list is
empty: the `all([SENDER, PASSWORD, RECEIVER])` guard is false and the
process performs no sampling or reporting at all — the run ends in the
initial state with no writes, no files and no error, whatever the tick
inputs. -/
theorem claim_C9_refuses_start (sender password : Option (List Char))
    (receivers : List (List Char)) (today0 : List Char) (ticks : List Tick)
    (h : sender = none ∨ password = none ∨ receivers = []) :
    startGuard sender password receivers = false ∧
      mainRun sender password receivers today0 ticks =
        (⟨today0, none, false, []⟩, none) := by
  have hg : startGuard sender password receivers = false := by
    rcases h with rfl | rfl | rfl
    · rfl
    · simp [startGuard, pyTruthyStr]
    · simp [startGuard]
  exact ⟨hg, by rw [mainRun, hg]; rfl⟩

/-- Witness for C9: unset sender variable, concrete password and recipient,
one pending tick — the loop never runs. -/
theorem claim_C9_refuses_start_witness :
    startGuard none (some "hunter2".data) ["ops@example.com".data] = false ∧
      mainRun none (some "hunter2".data) ["ops@example.com".data]
          "2024-05-01".data [⟨"2024-05-01".data, "10:00:00".data, sampleRowA, true⟩] =
        (⟨"2024-05-01".data, none, false, []⟩, none) :=
  claim_C9_refuses_start none (some "hunter2".data) ["ops@example.com".data]
    "2024-05-01".data [⟨"2024-05-01".data, "10:00:00".data, sampleRowA, true⟩]
    (Or.inl rfl)

end ResourceMonitor
